import Mathlib

/-!
Shallow embedding of the `web-behavior-tracker` library (TypeScript) in Lean 4.

The embedding follows the source files:
  `src/BehaviorTracker.ts`, `src/InputEventHandler.ts`, `src/MouseEventHandler.ts`,
  `src/ClipboardEventHandler.ts`, `src/CustomEventHandler.ts`, `src/utils.ts`.

Modelling conventions:
- JavaScript numbers that only ever hold millisecond timestamps or counters are
  modelled as `Nat`; score arithmetic (which uses decimal fractions) is modelled
  exactly over `ℚ`.
- `Date.now()` and freshly generated session identifiers are passed in as
  explicit arguments (`now : Nat`, `freshId : String`).
- The per-tab `sessionStorage` under the single fixed key
  `web_behavior_tracker_session` is modelled as an `Option Session` value
  threaded through the tracker state; JSON serialization of the snapshot is
  modelled as the identity on the structural data.
- DOM elements are modelled by the projection of the fields the library reads:
  tag name, ARIA role, id, `name` attribute, `type` attribute, current string
  value, checked flag, and the result of the source's custom-element fallback
  chain (`data-value` attribute, else `aria-valuetext` attribute, else `value`
  attribute, else `textContent`, else the empty string), held in
  `attrFallbackValue`; multi-select joins collapse to the `value` field.
- JavaScript `Map` objects keyed by element id are modelled as association
  lists where `set` prepends and lookup takes the first match.
-/

namespace WebBehaviorTracker

/-- Configuration captured at construction (`TrackingOptions` in `types.ts`),
with the defaults applied by the `BehaviorTracker` constructor. -/
structure TrackingOptions where
  trackMouseMovements : Bool := false
  trackFocusBlur : Bool := true
  trackInputChanges : Bool := true
  trackClicks : Bool := true
  trackCopyPaste : Bool := true
  riskThreshold : ℚ := 7/10
  minTimeSpent : Nat := 5000
  maxTimeSpent : Nat := 300000
  throttleDelay : Nat := 100
  deriving Repr

/-- Projection of an `HTMLElement` to the fields the library reads.
`attrFallbackValue` is the precomputed result of the source's custom-element
fallback chain: `data-value` attribute, else `aria-valuetext` attribute, else
`value` attribute, else `textContent`, else the empty string. -/
structure HTMLElement where
  tagName : String
  role : Option String := none
  id : String := ""
  nameAttr : Option String := none
  typeAttr : Option String := none
  value : String := ""
  checked : Bool := false
  attrFallbackValue : String := ""
  deriving Repr, DecidableEq

/-- ASCII lowercase conversion of one character (the fragment of
`String.prototype.toLowerCase` exercised by tag names, ids and attribute
values). -/
def lowerChar (c : Char) : Char :=
  if 'A' ≤ c ∧ c ≤ 'Z' then Char.ofNat (c.toNat + 32) else c

/-- ASCII lowercase conversion of a string, JavaScript `toLowerCase`. -/
def strToLower (s : String) : String := ⟨s.data.map lowerChar⟩

/-- Native form tags recognised by `TrackingUtils.isFormElement` (`utils.ts` lines 11-21). -/
def formElements : List String :=
  ["input", "select", "textarea", "button", "fieldset", "form", "label", "optgroup", "option"]

/-- ARIA roles recognised by `TrackingUtils.isFormElement` (`utils.ts` lines 30-39). -/
def formRoles : List String :=
  ["textbox", "checkbox", "radio", "combobox", "listbox", "button", "slider", "spinbutton"]

/-- The form-capability filter, `TrackingUtils.isFormElement` (`utils.ts` lines 10-42). -/
def isFormElement (element : HTMLElement) : Bool :=
  if formElements.contains (strToLower element.tagName) then true
  else
    match element.role with
    | some role => formRoles.contains role
    | none => false

/-- The option gate `TrackingUtils.shouldTrackEvent` (`utils.ts` lines 234-258). -/
def shouldTrackEvent (eventType : String) (options : TrackingOptions) : Bool :=
  if eventType = "mouseover" ∨ eventType = "mouseout" then options.trackMouseMovements
  else if eventType = "focus" ∨ eventType = "blur" then options.trackFocusBlur
  else if eventType = "click" then options.trackClicks
  else if eventType = "input" ∨ eventType = "change" then options.trackInputChanges
  else true

/-- Value extraction (`TrackingUtils.getElementValue`, `utils.ts` lines 47-86):
checkbox inputs report `checked.toString()`, radio inputs report their value
when checked and the empty string otherwise, text inputs, selects and
textareas report their value (multi-select joins collapse to the `value`
field), and every other element falls through to the custom-element fallback
chain (the combobox/listbox selected-option refinement of lines 78-83 is
collapsed into the same precomputed `attrFallbackValue`). -/
def getElementValue (element : HTMLElement) : String :=
  if (strToLower element.tagName) = "input" then
    if element.typeAttr = some "checkbox" then (if element.checked then "true" else "false")
    else if element.typeAttr = some "radio" then (if element.checked then element.value else "")
    else element.value
  else if (strToLower element.tagName) = "select" then element.value
  else if (strToLower element.tagName) = "textarea" then element.value
  else element.attrFallbackValue

/-- Character class `[a-zA-Z0-9._%+-]` of the email pattern in
`TrackingUtils.hasAutocompletePatterns` (`utils.ts` line 341). -/
def isEmailLocalChar (c : Char) : Bool :=
  c.isAlphanum || (['.', '_', '%', '+', '-'].contains c)

/-- Character class `[a-zA-Z0-9.-]` of the email pattern's domain part
(`utils.ts` line 341). -/
def isEmailDomainChar (c : Char) : Bool :=
  c.isAlphanum || c = '.' || c = '-'

/-- Anchored match of the regex fragment `[a-zA-Z0-9.-]+\.[a-zA-Z]\x7b2,\x7d` against a
whole character list: some split places a nonempty domain, a dot, and a trailing
run of at least two letters. -/
def domainTldMatch (r : List Char) : Bool :=
  (List.range r.length).any fun i =>
    decide (0 < i) && (r.take i).all isEmailDomainChar &&
    (r.get? i == some '.') &&
    decide (2 ≤ (r.drop (i + 1)).length) && (r.drop (i + 1)).all Char.isAlpha

/-- Anchored match of the email regex of `utils.ts` line 341.  The local part
cannot contain `@`, so the literal `@` of the pattern is the first `@` of the
string. -/
def emailPatternMatch (s : List Char) : Bool :=
  let localPart := s.takeWhile (fun c => c ≠ '@')
  match s.drop localPart.length with
  | '@' :: r => !localPart.isEmpty && localPart.all isEmailLocalChar && domainTldMatch r
  | _ => false

/-- Anchored match of the US ZIP regex of `utils.ts` line 342. -/
def zipPatternMatch (s : List Char) : Bool :=
  (decide (s.length = 5) && s.all Char.isDigit) ||
  (decide (s.length = 10) && (s.take 5).all Char.isDigit &&
    (s.get? 5 == some '-') && (s.drop 6).all Char.isDigit)

/-- Anchored match of the US phone regex of `utils.ts` line 343. -/
def phonePatternMatch (s : List Char) : Bool :=
  decide (s.length = 12) && (s.take 3).all Char.isDigit &&
  (s.get? 3 == some '-') && ((s.drop 4).take 3).all Char.isDigit &&
  (s.get? 7 == some '-') && (s.drop 8).all Char.isDigit

/-- Anchored match of the letters-and-spaces name regex of `utils.ts` line 344;
the `\s` class is modelled by `Char.isWhitespace`. -/
def namePatternMatch (s : List Char) : Bool :=
  !s.isEmpty && s.all (fun c => c.isAlpha || c.isWhitespace)

/-- The appended suffix `currentValue.substring(previousValue.length)` used by
the autocomplete helpers (`utils.ts` lines 304 and 337). -/
def addedText (currentValue previousValue : String) : List Char :=
  currentValue.toList.drop previousValue.toList.length

/-- `TrackingUtils.hasAutocompletePatterns` (`utils.ts` lines 336-348). -/
def hasAutocompletePatterns (currentValue previousValue : String) : Bool :=
  let added := addedText currentValue previousValue
  emailPatternMatch added || zipPatternMatch added ||
  phonePatternMatch added || namePatternMatch added

/-- `TrackingUtils.isCompleteWordInput` (`utils.ts` lines 303-311). -/
def isCompleteWordInput (currentValue previousValue : String) : Bool :=
  let added := addedText currentValue previousValue
  added.any Char.isWhitespace || added.contains '@' || decide (5 < added.length)

/-- Tests whether `sub` occurs at the start of `s`. -/
def listStartsWith : List Char → List Char → Bool
  | [], _ => true
  | _ :: _, [] => false
  | a :: as, b :: bs => a == b && listStartsWith as bs

/-- Tests whether `sub` occurs contiguously anywhere in `s`. -/
def listContainsSeq (s sub : List Char) : Bool :=
  match s with
  | [] => sub.isEmpty
  | _ :: rest => listStartsWith sub s || listContainsSeq rest sub

/-- Substring containment, JavaScript `String.prototype.includes`. -/
def strIncludes (s sub : String) : Bool :=
  listContainsSeq s.toList sub.toList

/-- Field-name tokens of `TrackingUtils.isAutocompleteField` (`utils.ts` lines 317-320). -/
def autocompleteFields : List String :=
  ["email", "name", "firstname", "lastname", "address", "city", "state",
   "zipcode", "postal", "country", "phone", "company", "organization"]

/-- `TrackingUtils.isAutocompleteField` (`utils.ts` lines 316-331). -/
def isAutocompleteField (target : HTMLElement) : Bool :=
  let fieldName := strToLower (target.nameAttr.getD "")
  let fieldId := strToLower target.id
  let fieldType := strToLower (target.typeAttr.getD "")
  autocompleteFields.any fun field =>
    strIncludes fieldName field || strIncludes fieldId field || fieldType == "email"

/-- `TrackingUtils.isAutocompleteEvent` (`utils.ts` lines 263-298).  Times are
millisecond timestamps; `timeDiff` uses truncated `Nat` subtraction, which
agrees with the source whenever `lastInputTime ≤ currentTime`. -/
def isAutocompleteEvent (currentValue previousValue : String)
    (currentTime lastInputTime : Nat) (target : HTMLElement) : Bool :=
  if currentValue.length < previousValue.length then false
  else if previousValue = "" then false
  else
    let timeDiff := currentTime - lastInputTime
    let valueDiff := currentValue.length - previousValue.length
    let isRapidLargeInput := decide (timeDiff < 100) && decide (3 < valueDiff)
    let isCompleteWord := isCompleteWordInput currentValue previousValue
    let isField := isAutocompleteField target
    let hasPatterns := hasAutocompletePatterns currentValue previousValue
    (isRapidLargeInput && isCompleteWord) || (isField && decide (2 < valueDiff)) || hasPatterns

/-- One normalized interaction record (`BehaviorEvent` in `types.ts`),
restricted to the fields the verified operations read.  `value` holds the
string form of the captured value, `customEventName` is present exactly on
application-triggered custom events. -/
structure BehaviorEvent where
  type : String
  elementId : String
  elementType : String
  timestamp : Nat
  value : String
  customEventName : Option String := none
  clipboardData : Option (List String × String) := none
  deriving Repr, DecidableEq

/-- Event construction, `TrackingUtils.createBehaviorEvent` (`utils.ts` lines 181-198);
`Date.now()` is the explicit `now` argument and `pageUrl`, attribute and state
snapshots carry no information the verified operations read. -/
def createBehaviorEvent (type : String) (target : HTMLElement) (value : String)
    (now : Nat) : BehaviorEvent :=
  { type := type
    elementId := target.id
    elementType := (strToLower target.tagName)
    timestamp := now
    value := value }

/-- Per-element history of the input classifier: the `lastInputValues` and
`lastInputTimes` maps of `InputEventHandler`, keyed by element id. -/
structure InputHState where
  lastInputValues : List (String × String) := []
  lastInputTimes : List (String × Nat) := []
  deriving Repr, DecidableEq

/-- Value extraction performed inline by `InputEventHandler.handleInputEvent`
(`InputEventHandler.ts` lines 26-56), composed with the
`String(elementValue or empty-string)` coercion of line 56: a checked checkbox
gives the string `true` while an unchecked one gives `false`, which is falsy,
so the coercion yields the empty string; an unchecked radio gives `null` and
therefore falls through to the attribute/text-content fallback chain of
lines 47-53, as does any element that is not an input, select or textarea;
text inputs, selects and textareas give their value (multi-select joins
collapse to the `value` field). -/
def inputExtractedValue (target : HTMLElement) : String :=
  if (strToLower target.tagName) = "input" then
    if target.typeAttr = some "checkbox" then (if target.checked then "true" else "")
    else if target.typeAttr = some "radio" then
      (if target.checked then target.value else target.attrFallbackValue)
    else target.value
  else if (strToLower target.tagName) = "select" then target.value
  else if (strToLower target.tagName) = "textarea" then target.value
  else target.attrFallbackValue

/-- `InputEventHandler.handleInputEvent` (`InputEventHandler.ts` lines 19-82).
Returns the updated per-element history and the event passed to
`onEventCreated`, or `none` when the handler returns early.  Note the source
applies no form-capability filter on this path. -/
def handleInputEvent (options : TrackingOptions) (hs : InputHState)
    (target : Option HTMLElement) (now : Nat) : InputHState × Option BehaviorEvent :=
  if !options.trackInputChanges then (hs, none)
  else
    match target with
    | none => (hs, none)
    | some t =>
      let elementId := t.id
      let currentValue := inputExtractedValue t
      let previousValue := (hs.lastInputValues.lookup elementId).getD ""
      let lastInputTime := (hs.lastInputTimes.lookup elementId).getD 0
      let eventType :=
        if currentValue.length < previousValue.length then "delete"
        else if isAutocompleteEvent currentValue previousValue now lastInputTime t then
          "autocomplete"
        else "input"
      let behaviorEvent := createBehaviorEvent eventType t currentValue now
      (⟨(elementId, currentValue) :: hs.lastInputValues,
        (elementId, now) :: hs.lastInputTimes⟩, some behaviorEvent)

/-- State of one `TrackingUtils.throttle` wrapper (`utils.ts` lines 203-215):
the captured `lastCall` variable, initialized to `0` when the wrapper is
created. -/
structure ThrottleState where
  lastCall : Nat := 0
  deriving Repr, DecidableEq

/-- One invocation of a throttled wrapper (`utils.ts` lines 208-214): the call
goes through iff `delay ≤ now - lastCall`, and then updates `lastCall`. -/
def throttleStep (delay : Nat) (ts : ThrottleState) (now : Nat) : Bool × ThrottleState :=
  if delay ≤ now - ts.lastCall then (true, ⟨now⟩) else (false, ts)

/-- `MouseEventHandler.handleMouseEvent` (`MouseEventHandler.ts` lines 19-57).
The source constructs a FRESH throttle wrapper on every invocation
(`TrackingUtils.throttle(...)` inside the handler body, line 38) and calls it
immediately, so the wrapper's `lastCall` is always its initial value `0`;
that per-call state is reproduced here verbatim. -/
def handleMouseEvent (options : TrackingOptions) (eventType : String)
    (target : Option HTMLElement) (now delay : Nat) : Option BehaviorEvent :=
  match target with
  | none => none
  | some t =>
    if !isFormElement t then none
    else if !shouldTrackEvent eventType options then none
    else
      let (fires, _) := throttleStep delay ⟨0⟩ now
      if fires then some (createBehaviorEvent eventType t (getElementValue t) now)
      else none

/-- `MouseEventHandler.handleClickEvent` (`MouseEventHandler.ts` lines 62-79). -/
def handleClickEvent (options : TrackingOptions) (target : Option HTMLElement)
    (now : Nat) : Option BehaviorEvent :=
  if !options.trackClicks then none
  else
    match target with
    | none => none
    | some t =>
      if !isFormElement t then none
      else some (createBehaviorEvent "click" t (getElementValue t) now)

/-- `MouseEventHandler.handleMouseMovementEvent` (`MouseEventHandler.ts`
lines 84-101), the handler the tracker registers for `mouseover` and
`mouseout`; the source applies no throttling on this path. -/
def handleMouseMovementEvent (options : TrackingOptions) (eventType : String)
    (target : Option HTMLElement) (now : Nat) : Option BehaviorEvent :=
  if !options.trackMouseMovements then none
  else
    match target with
    | none => none
    | some t =>
      if !isFormElement t then none
      else some (createBehaviorEvent eventType t (getElementValue t) now)

/-- `MouseEventHandler.handleFocusBlurEvent` (`MouseEventHandler.ts` lines 106-123). -/
def handleFocusBlurEvent (options : TrackingOptions) (eventType : String)
    (target : Option HTMLElement) (now : Nat) : Option BehaviorEvent :=
  if !options.trackFocusBlur then none
  else
    match target with
    | none => none
    | some t =>
      if !isFormElement t then none
      else some (createBehaviorEvent eventType t (getElementValue t) now)

/-- `ClipboardEventHandler.handleClipboardEvent` (`ClipboardEventHandler.ts`
lines 17-43), shared by the copy, paste and cut entry points. -/
def handleClipboardEvent (options : TrackingOptions) (eventType : String)
    (target : Option HTMLElement) (clipboardData : Option (List String × String))
    (now : Nat) : Option BehaviorEvent :=
  if !options.trackCopyPaste then none
  else
    match target with
    | none => none
    | some t =>
      if !isFormElement t then none
      else
        some { createBehaviorEvent eventType t (getElementValue t) now with
                 clipboardData := clipboardData }

/-- `FormEventHandler.handleSelectChange` (`FormEventHandler.ts` lines 17-35);
the `selectedOptions` snapshot carries no information the verified operations
read. -/
def handleSelectChange (target : HTMLElement) (now : Nat) : BehaviorEvent :=
  createBehaviorEvent "select-change" target target.value now

/-- `FormEventHandler.handleCheckboxRadioChange` (`FormEventHandler.ts`
lines 40-50): the value is `target.checked.toString()`. -/
def handleCheckboxRadioChange (target : HTMLElement) (now : Nat) : BehaviorEvent :=
  createBehaviorEvent "checkbox-radio-change" target
    (if target.checked then "true" else "false") now

/-- `FormEventHandler.handleFormSubmit` (`FormEventHandler.ts` lines 55-71);
the serialized form values are passed in as `formValuesJson`. -/
def handleFormSubmit (target : HTMLElement) (formValuesJson : String)
    (now : Nat) : BehaviorEvent :=
  createBehaviorEvent "form-submit" target formValuesJson now

/-- `FormEventHandler.handleFormValidation` (`FormEventHandler.ts`
lines 76-86): appends unconditionally — no option gate, no target-null check,
no form-capability filter. -/
def handleFormValidation (target : HTMLElement) (now : Nat) : BehaviorEvent :=
  createBehaviorEvent "invalid" target (getElementValue target) now

/-- `FormEventHandler.handleFormReset` (`FormEventHandler.ts` lines 91-101):
appends unconditionally, like `handleFormValidation`. -/
def handleFormReset (target : HTMLElement) (now : Nat) : BehaviorEvent :=
  createBehaviorEvent "reset" target (getElementValue target) now

/-- The `change` listener dispatch (`BehaviorTracker.ts` lines 373-380): route
to `handleSelectChange` when the target's tag is `select`, to
`handleCheckboxRadioChange` when the target is an input of type checkbox or
radio, and drop the event otherwise. -/
def dispatchChangeEvent (target : HTMLElement) (now : Nat) : Option BehaviorEvent :=
  if strToLower target.tagName = "select" then some (handleSelectChange target now)
  else if strToLower target.tagName = "input" ∧
      (target.typeAttr = some "checkbox" ∨ target.typeAttr = some "radio") then
    some (handleCheckboxRadioChange target now)
  else none

/-- The `submit` listener dispatch (`BehaviorTracker.ts` lines 383-388): route
to `handleFormSubmit` only when the target's tag is `form`. -/
def dispatchSubmitEvent (target : HTMLElement) (formValuesJson : String)
    (now : Nat) : Option BehaviorEvent :=
  if strToLower target.tagName = "form" then
    some (handleFormSubmit target formValuesJson now)
  else none

/-- The `invalid` listener dispatch (`BehaviorTracker.ts` lines 390-392): the
event is handed to `handleFormValidation` with no condition at all, so it is
always appended. -/
def dispatchInvalidEvent (target : HTMLElement) (now : Nat) : Option BehaviorEvent :=
  some (handleFormValidation target now)

/-- The `reset` listener dispatch (`BehaviorTracker.ts` lines 394-396): the
event is handed to `handleFormReset` with no condition at all, so it is always
appended. -/
def dispatchResetEvent (target : HTMLElement) (now : Nat) : Option BehaviorEvent :=
  some (handleFormReset target now)

/-- Custom event construction, `CustomEventHandler.createCustomEvent`
(`CustomEventHandler.ts` lines 18-47): the event is built with type `custom`
and the serialized payload as its value, then its type is OVERRIDDEN to the
caller-supplied event name (source line 38); `customEventName` carries the
name. -/
def createCustomEvent (eventName : String) (customDataJson : String)
    (target : HTMLElement) (now : Nat) : BehaviorEvent :=
  { createBehaviorEvent "custom" target customDataJson now with
      type := eventName
      customEventName := some eventName }

/-- Aggregate counters (`BehaviorMetrics` in `types.ts`). -/
structure BehaviorMetrics where
  timeSpent : Nat
  fieldInteractions : Nat
  fieldChanges : Nat
  focusCount : Nat
  blurCount : Nat
  mouseInteractions : Nat
  copyCount : Nat
  pasteCount : Nat
  cutCount : Nat
  deleteCount : Nat
  customEventCount : Nat
  deriving Repr, DecidableEq

/-- Zero-initialized metrics record (`BehaviorTracker.getMetrics`,
`BehaviorTracker.ts` lines 124-136). -/
def emptyMetrics (timeSpent : Nat) : BehaviorMetrics :=
  { timeSpent := timeSpent
    fieldInteractions := 0, fieldChanges := 0, focusCount := 0, blurCount := 0
    mouseInteractions := 0, copyCount := 0, pasteCount := 0, cutCount := 0
    deleteCount := 0, customEventCount := 0 }

/-- One step of the metrics fold: the `switch` over `event.type` in
`BehaviorTracker.getMetrics` (`BehaviorTracker.ts` lines 138-181), written as
the equivalent if-chain; the final branch is the `default` case, which counts
an event only when it carries a `customEventName`. -/
def countEvent (m : BehaviorMetrics) (e : BehaviorEvent) : BehaviorMetrics :=
  if e.type = "focus" then
    { m with focusCount := m.focusCount + 1, fieldInteractions := m.fieldInteractions + 1 }
  else if e.type = "blur" then
    { m with blurCount := m.blurCount + 1, fieldInteractions := m.fieldInteractions + 1 }
  else if e.type = "input" ∨ e.type = "change" then
    { m with fieldChanges := m.fieldChanges + 1, fieldInteractions := m.fieldInteractions + 1 }
  else if e.type = "delete" then
    { m with deleteCount := m.deleteCount + 1, fieldChanges := m.fieldChanges + 1,
             fieldInteractions := m.fieldInteractions + 1 }
  else if e.type = "mouseover" ∨ e.type = "mouseout" then
    { m with mouseInteractions := m.mouseInteractions + 1 }
  else if e.type = "copy" then { m with copyCount := m.copyCount + 1 }
  else if e.type = "paste" then { m with pasteCount := m.pasteCount + 1 }
  else if e.type = "cut" then { m with cutCount := m.cutCount + 1 }
  else if e.type = "custom" then { m with customEventCount := m.customEventCount + 1 }
  else if e.customEventName.isSome then { m with customEventCount := m.customEventCount + 1 }
  else m

/-- `BehaviorTracker.getMetrics` (`BehaviorTracker.ts` lines 120-184) as a pure
function of the event log and the elapsed time `now - startTime`. -/
def getMetrics (events : List BehaviorEvent) (timeSpent : Nat) : BehaviorMetrics :=
  events.foldl countEvent (emptyMetrics timeSpent)

/-- Clipboard event selector used by the pattern detector and the
rapid-sequence sub-detector (`BehaviorTracker.ts` lines 452 and 526). -/
def isClipboardType (e : BehaviorEvent) : Bool :=
  e.type = "copy" ∨ e.type = "paste" ∨ e.type = "cut"

/-- Consecutive-pair scan of `BehaviorTracker.detectRapidCopyPasteSequence`
(`BehaviorTracker.ts` lines 529-534): some adjacent pair of clipboard events is
separated by under 2000ms.  Truncated `Nat` subtraction agrees with the
source's signed subtraction because a negative difference also satisfies
`< 2000`. -/
def hasRapidAdjacentPair : List BehaviorEvent → Bool
  | a :: b :: rest => decide (b.timestamp - a.timestamp < 2000) || hasRapidAdjacentPair (b :: rest)
  | _ => false

/-- `BehaviorTracker.detectRapidCopyPasteSequence` (`BehaviorTracker.ts`
lines 525-551); the burst check counts clipboard events within 5000ms of the
call-time `now`. -/
def detectRapidCopyPasteSequence (events : List BehaviorEvent) (now : Nat) : Bool :=
  let copyPasteEvents := events.filter isClipboardType
  hasRapidAdjacentPair copyPasteEvents ||
  decide (3 ≤ (copyPasteEvents.filter (fun e => now - e.timestamp ≤ 5000)).length)

/-- Count of consecutive `input`-event pairs separated by under 50ms
(`BehaviorTracker.ts` lines 475-478: the `rapidInputs` filter keeps the second
element of each such pair). -/
def countRapidInputPairs : List BehaviorEvent → Nat
  | a :: b :: rest =>
    (if b.timestamp - a.timestamp < 50 then 1 else 0) + countRapidInputPairs (b :: rest)
  | _ => 0

/-- `BehaviorTracker.detectSuspiciousPatterns` (`BehaviorTracker.ts`
lines 437-485) as a pure function of the event log, the elapsed time and the
call-time clock. -/
def detectSuspiciousPatterns (events : List BehaviorEvent) (timeSpent now : Nat) :
    List String :=
  let metrics := getMetrics events timeSpent
  let p1 : List String :=
    if metrics.timeSpent < 5000 ∧ 5 < metrics.fieldChanges then
      ["Rapid form filling detected"] else []
  let p2 : List String :=
    if 20 < metrics.focusCount ∧ metrics.timeSpent < 10000 then
      ["Unusual focus pattern detected"] else []
  let copyPasteEvents := events.filter isClipboardType
  let pCp : List String :=
    if 0 < copyPasteEvents.length then
      let n := copyPasteEvents.length
      let copyCount := (copyPasteEvents.filter (fun e => e.type = "copy")).length
      let pasteCount := (copyPasteEvents.filter (fun e => e.type = "paste")).length
      (s!"{n} copy-paste operations detected" :: []) ++
      (if 0 < copyCount ∧ pasteCount = 0 then
        ["Copy operations without paste detected (potential data harvesting)"] else []) ++
      (if 10 < copyPasteEvents.length then
        ["Excessive copy-paste operations detected"] else []) ++
      (if detectRapidCopyPasteSequence events now then
        ["Rapid copy-paste sequence detected (potential automation)"] else [])
    else []
  let inputEvents := events.filter (fun e => e.type = "input")
  let pRapidInput : List String :=
    if 3 < countRapidInputPairs inputEvents ∧ copyPasteEvents.length = 0 then
      ["Possible copy-paste behavior detected (rapid input)"] else []
  p1 ++ p2 ++ pCp ++ pRapidInput

/-- The comparison `metrics.fieldChanges / metrics.fieldInteractions > 0.8` of
`BehaviorTracker.calculateRiskScore` (`BehaviorTracker.ts` line 495).  The
source divides WITHOUT defaulting the denominator; in JavaScript `0/0` is `NaN`
(comparison false) and `x/0` for `x > 0` is `+Infinity` (comparison true), so
for the natural-number counters the zero-denominator case reduces to `0 < fc`. -/
def fieldChangeRatioHigh (fc fi : Nat) : Bool :=
  if fi = 0 then decide (0 < fc)
  else decide ((4 : ℚ) / 5 < (fc : ℚ) / (fi : ℚ))

/-- The sum of the additive contributions of
`BehaviorTracker.calculateRiskScore` (`BehaviorTracker.ts` lines 487-521),
before the final clamp.  The `rapidCopyPaste` argument is the result of the
`detectRapidCopyPasteSequence()` call at line 516. -/
def riskContributions (options : TrackingOptions) (m : BehaviorMetrics)
    (suspiciousPatterns : List String) (rapidCopyPaste : Bool) : ℚ :=
  let s1 : ℚ := if m.timeSpent < options.minTimeSpent then 3/10 else 0
  let s2 : ℚ := if options.maxTimeSpent < m.timeSpent then 2/10 else 0
  let s3 : ℚ := if fieldChangeRatioHigh m.fieldChanges m.fieldInteractions then 2/10 else 0
  let s4 : ℚ := if m.mouseInteractions < 5 then 1/10 else 0
  let totalCopyPasteOps := m.copyCount + m.pasteCount + m.cutCount
  let totalFieldInteractions := if m.fieldInteractions = 0 then 1 else m.fieldInteractions
  let copyPasteRatio : ℚ := (totalCopyPasteOps : ℚ) / (totalFieldInteractions : ℚ)
  let s5 : ℚ :=
    if (1 : ℚ)/2 < copyPasteRatio then 25/100
    else if (3 : ℚ)/10 < copyPasteRatio then 15/100
    else if (1 : ℚ)/10 < copyPasteRatio then 5/100
    else 0
  let s6 : ℚ :=
    if 10 < totalCopyPasteOps then 2/10
    else if 5 < totalCopyPasteOps then 1/10
    else 0
  let s7 : ℚ := if 0 < m.copyCount ∧ m.pasteCount = 0 then 15/100 else 0
  let s8 : ℚ := if rapidCopyPaste then 2/10 else 0
  let s9 : ℚ := (suspiciousPatterns.length : ℚ) * (1/10)
  s1 + s2 + s3 + s4 + s5 + s6 + s7 + s8 + s9

/-- `BehaviorTracker.calculateRiskScore` (`BehaviorTracker.ts` lines 487-523):
the accumulated contributions clamped by `Math.min(score, 1)`. -/
def calculateRiskScore (options : TrackingOptions) (m : BehaviorMetrics)
    (suspiciousPatterns : List String) (rapidCopyPaste : Bool) : ℚ :=
  min (riskContributions options m suspiciousPatterns rapidCopyPaste) 1

/-- Modelled from the spec (section 4.5): the `fieldChanges/fieldInteractions`
comparison with the denominator defaulted to 1 when zero, as the spec's words
describe; to be compared against the source-faithful `fieldChangeRatioHigh`. -/
def fieldChangeRatioHighSpecDefaulted (fc fi : Nat) : Bool :=
  decide ((4 : ℚ) / 5 < (fc : ℚ) / ((if fi = 0 then 1 else fi : Nat) : ℚ))

/-- Modelled from the spec (section 4.5): the risk score with every
`fieldInteractions` denominator defaulted to 1 when zero; identical to
`riskContributions` except that the line-495 comparison uses the defaulted
denominator. -/
def calculateRiskScoreSpecDefaulted (options : TrackingOptions) (m : BehaviorMetrics)
    (suspiciousPatterns : List String) (rapidCopyPaste : Bool) : ℚ :=
  let s1 : ℚ := if m.timeSpent < options.minTimeSpent then 3/10 else 0
  let s2 : ℚ := if options.maxTimeSpent < m.timeSpent then 2/10 else 0
  let s3 : ℚ :=
    if fieldChangeRatioHighSpecDefaulted m.fieldChanges m.fieldInteractions then 2/10 else 0
  let s4 : ℚ := if m.mouseInteractions < 5 then 1/10 else 0
  let totalCopyPasteOps := m.copyCount + m.pasteCount + m.cutCount
  let totalFieldInteractions := if m.fieldInteractions = 0 then 1 else m.fieldInteractions
  let copyPasteRatio : ℚ := (totalCopyPasteOps : ℚ) / (totalFieldInteractions : ℚ)
  let s5 : ℚ :=
    if (1 : ℚ)/2 < copyPasteRatio then 25/100
    else if (3 : ℚ)/10 < copyPasteRatio then 15/100
    else if (1 : ℚ)/10 < copyPasteRatio then 5/100
    else 0
  let s6 : ℚ :=
    if 10 < totalCopyPasteOps then 2/10
    else if 5 < totalCopyPasteOps then 1/10
    else 0
  let s7 : ℚ := if 0 < m.copyCount ∧ m.pasteCount = 0 then 15/100 else 0
  let s8 : ℚ := if rapidCopyPaste then 2/10 else 0
  let s9 : ℚ := (suspiciousPatterns.length : ℚ) * (1/10)
  min (s1 + s2 + s3 + s4 + s5 + s6 + s7 + s8 + s9) 1

/-- The `averageTimePerField` expression of `BehaviorTracker.getInsights`
(`BehaviorTracker.ts` line 198): `metrics.timeSpent / (metrics.fieldInteractions or 1)`. -/
def averageTimePerField (m : BehaviorMetrics) : ℚ :=
  (m.timeSpent : ℚ) / ((if m.fieldInteractions = 0 then 1 else m.fieldInteractions : Nat) : ℚ)

/-- Form-field record (`FormField` in `types.ts`), consumed only by
`calculateCompletionRate`. -/
structure FormField where
  id : String
  type : String
  fieldName : String
  value : String
  isRequired : Bool
  deriving Repr, DecidableEq

/-- `BehaviorTracker.calculateCompletionRate` (`BehaviorTracker.ts`
lines 553-563); the `formFields` map is modelled as the list of its values. -/
def calculateCompletionRate (formFields : List FormField)
    (events : List BehaviorEvent) : ℚ :=
  let requiredFields := formFields.filter (·.isRequired)
  if requiredFields.length = 0 then 1
  else
    let completedFields := requiredFields.filter fun field =>
      (events.filter (fun e => e.elementId = field.id)).any fun e =>
        e.type = "change" ∨ e.type = "input" ∨ e.type = "delete"
    (completedFields.length : ℚ) / (requiredFields.length : ℚ)

/-- First-occurrence deduplication used by `getFieldInteractionOrder`
(`BehaviorTracker.ts` lines 430-434). -/
def dedupFirst (l : List String) : List String :=
  l.foldl (fun acc x => if acc.contains x then acc else acc ++ [x]) []

/-- `BehaviorTracker.getFieldInteractionOrder` (`BehaviorTracker.ts` lines 425-435). -/
def getFieldInteractionOrder (events : List BehaviorEvent) : List String :=
  dedupFirst ((events.filter fun e =>
    e.type = "focus" ∨ e.type = "input" ∨ e.type = "delete" ∨ e.type = "change").map
      (·.elementId))

/-- The persisted snapshot `\x7bsessionId, events\x7d` stored under the fixed
storage key (`BehaviorTracker.ts` lines 66-68). -/
structure Session where
  sessionId : String
  events : List BehaviorEvent
  deriving Repr, DecidableEq

/-- Full tracker state: the fields of the `BehaviorTracker` class together with
the per-tab storage slot it reads and writes and the state of its helper
handler objects (`InputEventHandler` maps, `CustomEventHandler` list). -/
structure TrackerState where
  options : TrackingOptions
  events : List BehaviorEvent := []
  startTime : Nat := 0
  formFields : List FormField := []
  isTracking : Bool := false
  sessionId : String := ""
  storage : Option Session := none
  customEvents : List BehaviorEvent := []
  inputState : InputHState := {}
  deriving Repr

/-- `BehaviorTracker.getOrCreateSessionId` (`BehaviorTracker.ts` lines 54-64):
reuse the persisted session id when a snapshot exists, otherwise generate a
fresh id (passed in as `freshId`) and persist an empty snapshot. -/
def getOrCreateSessionId (storage : Option Session) (freshId : String) :
    String × Option Session :=
  match storage with
  | some s => (s.sessionId, storage)
  | none => (freshId, some ⟨freshId, []⟩)

/-- `BehaviorTracker.loadSessionData` (`BehaviorTracker.ts` lines 70-76): the
event log restored from the snapshot, or the log left as-is (empty at
construction) when no snapshot exists. -/
def loadSessionData (storage : Option Session) : List BehaviorEvent :=
  match storage with
  | some s => s.events
  | none => []

/-- The `BehaviorTracker` constructor (`BehaviorTracker.ts` lines 27-52)
against a given storage slot: resolve the session id first (possibly writing
an empty snapshot), then load the persisted events. -/
def mkTracker (options : TrackingOptions) (storage : Option Session)
    (freshId : String) : TrackerState :=
  let (sid, storage') := getOrCreateSessionId storage freshId
  { options := options
    sessionId := sid
    storage := storage'
    events := loadSessionData storage' }

/-- Event append and write-through persistence,
`BehaviorTracker.onEventCreated` (`BehaviorTracker.ts` lines 212-215). -/
def onEventCreated (st : TrackerState) (e : BehaviorEvent) : TrackerState :=
  { st with events := st.events ++ [e]
            storage := some ⟨st.sessionId, st.events ++ [e]⟩ }

/-- `BehaviorTracker.clearSession` (`BehaviorTracker.ts` lines 569-574):
empty the log, restart the clock, delete the snapshot, regenerate the id
(which re-persists an empty snapshot). -/
def clearSession (st : TrackerState) (now : Nat) (freshId : String) : TrackerState :=
  let (sid, storage') := getOrCreateSessionId none freshId
  { st with events := []
            startTime := now
            sessionId := sid
            storage := storage' }

/-- `BehaviorTracker.startTracking` (`BehaviorTracker.ts` lines 78-88). -/
def startTracking (st : TrackerState) (reset : Bool) (now : Nat)
    (freshId : String) : TrackerState :=
  if st.isTracking then st
  else
    let st1 := if reset then clearSession st now freshId else st
    { st1 with isTracking := true, startTime := now }

/-- `BehaviorTracker.stopTracking` (`BehaviorTracker.ts` lines 90-106):
persist the final snapshot and clear the input handler's per-element maps. -/
def stopTracking (st : TrackerState) : TrackerState :=
  if !st.isTracking then st
  else
    { st with isTracking := false
              storage := some ⟨st.sessionId, st.events⟩
              inputState := {} }

/-- `BehaviorTracker.getEvents` (`BehaviorTracker.ts` lines 205-207); the
defensive array copy is the identity on the modelled list. -/
def getEvents (st : TrackerState) : List BehaviorEvent :=
  st.events

/-- `BehaviorTracker.trackCustomEvent` via `CustomEventHandler.createCustomEvent`
(`BehaviorTracker.ts` lines 255-266, `CustomEventHandler.ts` lines 18-47):
the event is appended to the handler's custom list and then passed to
`onEventCreated`. -/
def trackCustomEvent (st : TrackerState) (eventName : String)
    (customDataJson : String) (target : HTMLElement) (now : Nat) : TrackerState :=
  let ev := createCustomEvent eventName customDataJson target now
  onEventCreated { st with customEvents := st.customEvents ++ [ev] } ev

/-- `CustomEventHandler.getCustomEvents` (`CustomEventHandler.ts` lines 52-54),
surfaced by `BehaviorTracker.getCustomEvents`; the defensive copy is the
identity on the modelled list. -/
def getCustomEvents (st : TrackerState) : List BehaviorEvent :=
  st.customEvents

/-- `CustomEventHandler.getCustomEventsCount` (`CustomEventHandler.ts` lines 68-70). -/
def getCustomEventsCount (st : TrackerState) : Nat :=
  st.customEvents.length

/-- `CustomEventHandler.getCustomEventsByName` (`CustomEventHandler.ts` lines 59-63). -/
def getCustomEventsByName (st : TrackerState) (eventName : String) : List BehaviorEvent :=
  st.customEvents.filter (fun e => e.customEventName = some eventName)

/-- `CustomEventHandler.hasCustomEvent` (`CustomEventHandler.ts` lines 114-118). -/
def hasCustomEvent (st : TrackerState) (eventName : String) : Bool :=
  st.customEvents.any (fun e => e.customEventName = some eventName)

/-- `CustomEventHandler.clearCustomEvents` (`CustomEventHandler.ts` lines 82-84). -/
def clearCustomEvents (st : TrackerState) : TrackerState :=
  { st with customEvents := [] }

/-- `CustomEventHandler.getLastCustomEvent` (`CustomEventHandler.ts`
lines 123-129): the last event of the name-filtered list (or of the whole
list), `none` when empty. -/
def getLastCustomEvent (st : TrackerState) (eventName : Option String) :
    Option BehaviorEvent :=
  let events :=
    match eventName with
    | some nm => getCustomEventsByName st nm
    | none => st.customEvents
  events.getLast?

/-- One externally triggered operation on a live tracker: the public lifecycle
calls plus the DOM-listener dispatches installed by `setupEventListeners`
(`BehaviorTracker.ts` lines 334-410). -/
inductive TrackerOp where
  | start (reset : Bool) (now : Nat) (freshId : String)
  | stop
  | clear (now : Nat) (freshId : String)
  | clearCustom
  | custom (eventName customDataJson : String) (target : HTMLElement) (now : Nat)
  | domInput (target : Option HTMLElement) (now : Nat)
  | domFocusBlur (eventType : String) (target : Option HTMLElement) (now : Nat)
  | domClick (target : Option HTMLElement) (now : Nat)
  | domMouseMove (eventType : String) (target : Option HTMLElement) (now : Nat)
  | domClipboard (eventType : String) (target : Option HTMLElement)
      (clipboardData : Option (List String × String)) (now : Nat)
  deriving Repr

/-- Folds an optional handler result into the tracker state through
`onEventCreated`. -/
def applyHandlerResult (st : TrackerState) (res : Option BehaviorEvent) : TrackerState :=
  match res with
  | some e => onEventCreated st e
  | none => st

/-- Applies one operation to the tracker state.  DOM dispatches take effect
only while listeners are attached, i.e. while `isTracking` holds. -/
def applyOp (st : TrackerState) (op : TrackerOp) : TrackerState :=
  match op with
  | .start reset now freshId => startTracking st reset now freshId
  | .stop => stopTracking st
  | .clear now freshId => clearSession st now freshId
  | .clearCustom => clearCustomEvents st
  | .custom eventName dataJson target now => trackCustomEvent st eventName dataJson target now
  | .domInput target now =>
    if st.isTracking then
      let (hs', res) := handleInputEvent st.options st.inputState target now
      applyHandlerResult { st with inputState := hs' } res
    else st
  | .domFocusBlur eventType target now =>
    if st.isTracking then
      applyHandlerResult st (handleFocusBlurEvent st.options eventType target now)
    else st
  | .domClick target now =>
    if st.isTracking then applyHandlerResult st (handleClickEvent st.options target now)
    else st
  | .domMouseMove eventType target now =>
    if st.isTracking then
      applyHandlerResult st (handleMouseMovementEvent st.options eventType target now)
    else st
  | .domClipboard eventType target clipboardData now =>
    if st.isTracking then
      applyHandlerResult st (handleClipboardEvent st.options eventType target clipboardData now)
    else st

/-- A tracker state reached from construction by a sequence of operations. -/
def runOps (options : TrackingOptions) (storage : Option Session)
    (freshId : String) (ops : List TrackerOp) : TrackerState :=
  ops.foldl applyOp (mkTracker options storage freshId)

/-- Derived insight record (`BehaviorInsights` in `types.ts`), restricted to
the behavioural fields (the browser-metadata snapshot carries no verified
content). -/
structure BehaviorInsights where
  riskScore : ℚ
  suspiciousPatterns : List String
  completionRate : ℚ
  averageTimePerField : ℚ
  fieldInteractionOrder : List String
  deriving Repr

/-- `BehaviorTracker.getInsights` (`BehaviorTracker.ts` lines 186-203) as a
function of the state and the call-time clock. -/
def getInsights (st : TrackerState) (now : Nat) : BehaviorInsights :=
  let timeSpent := now - st.startTime
  let metrics := getMetrics st.events timeSpent
  let suspiciousPatterns := detectSuspiciousPatterns st.events timeSpent now
  let riskScore := calculateRiskScore st.options metrics suspiciousPatterns
    (detectRapidCopyPasteSequence st.events now)
  { riskScore := riskScore
    suspiciousPatterns := suspiciousPatterns
    completionRate := calculateCompletionRate st.formFields st.events
    averageTimePerField := averageTimePerField metrics
    fieldInteractionOrder := getFieldInteractionOrder st.events }

/-- The event types with dedicated cases in the `getMetrics` switch
(`BehaviorTracker.ts` lines 139-173). -/
def switchHandledTypes : List String :=
  ["focus", "blur", "input", "change", "delete", "mouseover", "mouseout",
   "copy", "paste", "cut", "custom"]

/-- Characterization of the events the `getMetrics` switch counts into
`customEventCount`: the literal `custom` type, or a type outside the switch's
dedicated cases together with a `customEventName` tag. -/
def countsAsCustomEvent (e : BehaviorEvent) : Bool :=
  decide (e.type = "custom" ∨ (e.type ∉ switchHandledTypes ∧ e.customEventName.isSome = true))

/-- The options record with all constructor defaults applied. -/
def defaultTrackingOptions : TrackingOptions := {}

/-- Options with mouse-movement tracking switched on (all other defaults). -/
def mouseTrackingOptions : TrackingOptions := { trackMouseMovements := true }

/-- A plain `div` element: not a native form tag and carrying no ARIA role;
its text content (seen through the attribute fallback chain) is `hello`. -/
def divElem : HTMLElement :=
  { tagName := "div", id := "comment-box", attrFallbackValue := "hello" }

/-- A text input field with id `name`, used as a form-capable mouse target. -/
def nameField : HTMLElement :=
  { tagName := "input", id := "name", typeAttr := some "text", value := "x" }

/-- The email text field of the autocomplete scenario. -/
def emailField : HTMLElement :=
  { tagName := "input", id := "email", typeAttr := some "text",
    value := "alice@example.com" }

/-- Classifier history for the autocomplete scenario: the element with id
`email` last held the value `a`, recorded at time 1000. -/
def c8History : InputHState :=
  { lastInputValues := [("email", "a")], lastInputTimes := [("email", 1000)] }

/-- A concrete tracking tracker state holding one focus event, with the
write-through snapshot in storage. -/
def sampleTrackingState : TrackerState :=
  { options := {}
    events := [createBehaviorEvent "focus" nameField "x" 500]
    startTime := 400
    isTracking := true
    sessionId := "session_1"
    storage := some ⟨"session_1", [createBehaviorEvent "focus" nameField "x" 500]⟩
    customEvents := [createCustomEvent "conversion" "42" divElem 450] }

/-! ## Theorems -/

/-- Every additive contribution of the risk score is nonnegative, hence so is
their sum. -/
theorem riskContributions_nonneg (options : TrackingOptions) (m : BehaviorMetrics)
    (suspiciousPatterns : List String) (rapidCopyPaste : Bool) :
    0 ≤ riskContributions options m suspiciousPatterns rapidCopyPaste := by
  unfold riskContributions
  dsimp only
  repeat' apply add_nonneg
  all_goals positivity

/-- C1: for every metrics input (including all-zero metrics) and every list of
detected suspicious patterns, `calculateRiskScore` returns the minimum of 1
and the sum of the listed contributions, that sum is nonnegative, and the
result lies in the interval [0, 1]. -/
theorem c1_risk_score_unit_interval (options : TrackingOptions)
    (m : BehaviorMetrics) (suspiciousPatterns : List String) (rapidCopyPaste : Bool) :
    0 ≤ calculateRiskScore options m suspiciousPatterns rapidCopyPaste ∧
    calculateRiskScore options m suspiciousPatterns rapidCopyPaste ≤ 1 ∧
    calculateRiskScore options m suspiciousPatterns rapidCopyPaste =
      min (riskContributions options m suspiciousPatterns rapidCopyPaste) 1 ∧
    0 ≤ riskContributions options m suspiciousPatterns rapidCopyPaste := by
  refine ⟨?_, ?_, rfl, riskContributions_nonneg options m suspiciousPatterns rapidCopyPaste⟩
  · exact le_min (riskContributions_nonneg options m suspiciousPatterns rapidCopyPaste)
      (by norm_num)
  · exact min_le_right _ _

/-- Each metrics-fold step preserves `fieldChanges ≤ fieldInteractions`: the
branches for `input`, `change` and `delete` increment both counters, `focus`
and `blur` increment only `fieldInteractions`, and every other branch leaves
both unchanged. -/
theorem countEvent_changes_le_interactions (m : BehaviorMetrics) (e : BehaviorEvent)
    (h : m.fieldChanges ≤ m.fieldInteractions) :
    (countEvent m e).fieldChanges ≤ (countEvent m e).fieldInteractions := by
  unfold countEvent
  repeat' split
  all_goals first
    | omega
    | (simp only []; omega)

/-- The metrics fold preserves `fieldChanges ≤ fieldInteractions` from any
starting accumulator. -/
theorem foldl_changes_le_interactions (es : List BehaviorEvent) :
    ∀ m : BehaviorMetrics, m.fieldChanges ≤ m.fieldInteractions →
      (es.foldl countEvent m).fieldChanges ≤ (es.foldl countEvent m).fieldInteractions := by
  induction es with
  | nil => intro m h; exact h
  | cons e rest ih =>
    intro m h
    exact ih (countEvent m e) (countEvent_changes_le_interactions m e h)

/-- C6: for every sequence of classified events, `getMetrics` yields
`fieldInteractions ≥ fieldChanges`. -/
theorem c6_interactions_ge_changes (events : List BehaviorEvent) (timeSpent : Nat) :
    (getMetrics events timeSpent).fieldChanges ≤
      (getMetrics events timeSpent).fieldInteractions := by
  exact foldl_changes_le_interactions events (emptyMetrics timeSpent) (by simp [emptyMetrics])

/-- Each metrics-fold step increments `customEventCount` exactly on the events
characterized by `countsAsCustomEvent`: the switch counts the literal `custom`
type, and its `default` branch counts a tagged event only when its type falls
outside all dedicated cases. -/
theorem countEvent_customEventCount (m : BehaviorMetrics) (e : BehaviorEvent) :
    (countEvent m e).customEventCount =
      m.customEventCount + (if countsAsCustomEvent e then 1 else 0) := by
  unfold countEvent
  repeat' split
  all_goals (try simp_all [countsAsCustomEvent, switchHandledTypes])
  all_goals casesm* _ ∨ _, _ ∧ _
  all_goals simp_all

/-- The metrics fold accumulates `customEventCount` as the number of
`countsAsCustomEvent` events. -/
theorem foldl_customEventCount (es : List BehaviorEvent) :
    ∀ m : BehaviorMetrics, (es.foldl countEvent m).customEventCount =
      m.customEventCount + (es.filter countsAsCustomEvent).length := by
  induction es with
  | nil => intro m; simp
  | cons e rest ih =>
    intro m
    rw [List.foldl_cons, ih (countEvent m e), countEvent_customEventCount]
    by_cases h : countsAsCustomEvent e <;> (simp [List.filter_cons, h]; try omega)

/-- C4 counterexample: the event produced by `trackCustomEvent` with the name
`focus` carries a `customEventName` tag, yet `getMetrics` counts it into
`focusCount` and not into `customEventCount` (the type override at
`CustomEventHandler.ts` line 38 makes its type collide with a dedicated switch
case), so `customEventCount` is 0 while the log holds one tagged event. -/
theorem c4_counterexample :
    (createCustomEvent "focus" "42" divElem 1000).customEventName = some "focus" ∧
    (getMetrics [createCustomEvent "focus" "42" divElem 1000] 0).customEventCount = 0 ∧
    (getMetrics [createCustomEvent "focus" "42" divElem 1000] 0).focusCount = 1 := by
  refine ⟨rfl, ?_, ?_⟩ <;> decide

/-- C4 (amended): `getMetrics().customEventCount` equals the number of events
whose type is the literal `custom`, plus the number of events whose type is
outside the switch's dedicated cases and which carry a `customEventName` tag;
an event created by `trackCustomEvent` whose name collides with a dedicated
case (such as `focus`) is counted under that case instead. -/
theorem c4_custom_event_count (events : List BehaviorEvent) (timeSpent : Nat) :
    (getMetrics events timeSpent).customEventCount =
      (events.filter countsAsCustomEvent).length := by
  rw [getMetrics, foldl_customEventCount]
  simp [emptyMetrics]

/-- The raw line-495 comparison coincides with the spec's defaulted-denominator
reading on the natural-number counters: with a zero denominator, JavaScript
yields `NaN > 0.8 = false` when the numerator is 0 and `Infinity > 0.8 = true`
otherwise, exactly the outcomes of comparing `fc / 1 > 0.8`. -/
theorem fieldChangeRatioHigh_eq_specDefaulted (fc fi : Nat) :
    fieldChangeRatioHigh fc fi = fieldChangeRatioHighSpecDefaulted fc fi := by
  unfold fieldChangeRatioHigh fieldChangeRatioHighSpecDefaulted
  by_cases hfi : fi = 0
  · subst hfi
    rcases Nat.eq_zero_or_pos fc with hfc | hfc
    · subst hfc; norm_num
    · have h1 : (1 : ℚ) ≤ (fc : ℚ) := by exact_mod_cast hfc
      simp only [if_pos rfl, decide_eq_decide]
      norm_num
      constructor
      · intro _; linarith
      · intro _; omega
  · simp [hfi]

/-- C5: the risk score computed by the source (whose line-495 ratio divides by
`fieldInteractions` with JavaScript division semantics) equals the score of
the spec's model in which every `fieldInteractions` denominator is defaulted
to 1 when zero, and `averageTimePerField` divides by
`max 1 fieldInteractions`; both functions are total, so no metrics input can
raise. -/
theorem c5_zero_denominators_defaulted (options : TrackingOptions)
    (m m' : BehaviorMetrics) (suspiciousPatterns : List String) (rapidCopyPaste : Bool) :
    calculateRiskScore options m suspiciousPatterns rapidCopyPaste =
      calculateRiskScoreSpecDefaulted options m suspiciousPatterns rapidCopyPaste ∧
    averageTimePerField m' =
      (m'.timeSpent : ℚ) / ((max 1 m'.fieldInteractions : Nat) : ℚ) := by
  constructor
  · simp only [calculateRiskScore, riskContributions, calculateRiskScoreSpecDefaulted,
      fieldChangeRatioHigh_eq_specDefaulted]
  · unfold averageTimePerField
    rcases Nat.eq_zero_or_pos m'.fieldInteractions with hfi | hfi
    · simp [hfi]
    · rw [if_neg (by omega), Nat.max_eq_right hfi]

/-- C2 counterexample: on a plain `div` target (not a native form tag, no
ARIA role), an `input` event is classified and appended
(`InputEventHandler.handleInputEvent` applies no form-capability filter), and
so are the `invalid` and `reset` form events (their listeners dispatch to
`FormEventHandler` with no filter at all) — so the filtering rule fails for
the `input`, `invalid` and `reset` interaction types. -/
theorem c2_counterexample :
    isFormElement divElem = false ∧
    (handleInputEvent defaultTrackingOptions {} (some divElem) 1000).2 =
      some (createBehaviorEvent "input" divElem "hello" 1000) ∧
    dispatchInvalidEvent divElem 1000 =
      some (createBehaviorEvent "invalid" divElem "hello" 1000) ∧
    dispatchResetEvent divElem 1000 =
      some (createBehaviorEvent "reset" divElem "hello" 1000) := by
  refine ⟨?_, ?_, ?_, ?_⟩ <;> rfl

/-- A non-form-capable target's lowercased tag is none of the native form
tags; in particular it differs from any given member of `formElements`. -/
theorem isFormElement_false_tag_ne (t : HTMLElement) (h : isFormElement t = false)
    (tag : String) (htag : formElements.contains tag = true) :
    strToLower t.tagName ≠ tag := by
  intro he
  unfold isFormElement at h
  rw [he, htag] at h
  simp at h

/-- C2 (amended): the form-capability filter is applied before classification
by the focus, blur, click, mouseover/mouseout and copy/paste/cut handlers — a
non-form-capable target yields no appended event — and the `change`
(select-change, checkbox-radio-change) and `submit` (form-submit) dispatches
reach only form-capable targets because their tag guards (`select`, `input`,
`form`) are native form tags.  The filter is NOT applied to `input` events
(with input tracking enabled, an input event on any target is classified and
appended) nor to the `invalid` and `reset` form events (their dispatches
append unconditionally, regardless of the target's form-capability). -/
theorem c2_form_filter (options : TrackingOptions) (hs : InputHState)
    (t : HTMLElement) (focusType mouseType clipType formValuesJson : String)
    (clip : Option (List String × String)) (now delay : Nat)
    (h : isFormElement t = false) :
    handleFocusBlurEvent options focusType (some t) now = none ∧
    handleClickEvent options (some t) now = none ∧
    handleMouseMovementEvent options mouseType (some t) now = none ∧
    handleMouseEvent options mouseType (some t) now delay = none ∧
    handleClipboardEvent options clipType (some t) clip now = none ∧
    dispatchChangeEvent t now = none ∧
    dispatchSubmitEvent t formValuesJson now = none ∧
    (options.trackInputChanges = true →
      ((handleInputEvent options hs (some t) now).2).isSome = true) ∧
    (dispatchInvalidEvent t now).isSome = true ∧
    (dispatchResetEvent t now).isSome = true := by
  have hsel := isFormElement_false_tag_ne t h "select" (by rfl)
  have hinp := isFormElement_false_tag_ne t h "input" (by rfl)
  have hform := isFormElement_false_tag_ne t h "form" (by rfl)
  refine ⟨?_, ?_, ?_, ?_, ?_, ?_, ?_, ?_, rfl, rfl⟩
  · unfold handleFocusBlurEvent
    split_ifs <;> simp [h]
  · unfold handleClickEvent
    split_ifs <;> simp [h]
  · unfold handleMouseMovementEvent
    split_ifs <;> simp [h]
  · unfold handleMouseEvent
    simp [h]
  · unfold handleClipboardEvent
    split_ifs <;> simp [h]
  · unfold dispatchChangeEvent
    rw [if_neg hsel, if_neg (fun hc => hinp hc.1)]
  · unfold dispatchSubmitEvent
    rw [if_neg hform]
  · intro htrack
    unfold handleInputEvent
    simp [htrack]

/-- C2 witness: the amended filter statement instantiated at the plain `div`
target, with the default options. -/
theorem c2_form_filter_witness :
    handleClickEvent defaultTrackingOptions (some divElem) 7 = none ∧
    dispatchChangeEvent divElem 7 = none ∧
    ((handleInputEvent defaultTrackingOptions {} (some divElem) 7).2).isSome = true ∧
    (dispatchInvalidEvent divElem 7).isSome = true := by
  have h := c2_form_filter defaultTrackingOptions {} divElem "focus" "mouseover" "copy"
    "42" none 7 100 (by rfl)
  exact ⟨h.2.1, h.2.2.2.2.2.1, h.2.2.2.2.2.2.2.1 rfl, h.2.2.2.2.2.2.2.2.1⟩

/-- C3: evaluation of the code at the failing input.  Two `mouseover` events
on the same form-capable target, 1ms apart with a 100ms `throttleDelay`, are
BOTH classified and appended: the registered mouseover/mouseout handler
(`handleMouseMovementEvent`) applies no throttle at all, and even
`handleMouseEvent` constructs a fresh throttle wrapper per event, whose
`lastCall` of 0 lets every event with timestamp at least `delay` through. -/
theorem c3_throttle_ineffective :
    (handleMouseMovementEvent mouseTrackingOptions "mouseover" (some nameField) 1000).isSome
      = true ∧
    (handleMouseMovementEvent mouseTrackingOptions "mouseover" (some nameField) 1001).isSome
      = true ∧
    (handleMouseEvent mouseTrackingOptions "mouseover" (some nameField) 1000 100).isSome
      = true ∧
    (handleMouseEvent mouseTrackingOptions "mouseover" (some nameField) 1001 100).isSome
      = true := by
  refine ⟨?_, ?_, ?_, ?_⟩ <;> rfl

/-- C8: classifier scenario — the element with id `email` previously held the
value `a` (recorded at time 1000); the input observed at time 1080 with value
`alice@example.com` is classified as `autocomplete`, not `input` and not
`delete`. -/
theorem c8_autocomplete_scenario :
    (handleInputEvent defaultTrackingOptions c8History (some emailField) 1080).2 =
      some (createBehaviorEvent "autocomplete" emailField "alice@example.com" 1080) := by
  rfl

/-- Stopping an actively tracking tracker persists exactly the in-memory log. -/
theorem stopTracking_storage (st : TrackerState) (h : st.isTracking = true) :
    (stopTracking st).storage = some ⟨st.sessionId, st.events⟩ := by
  unfold stopTracking
  rw [h]
  rfl

/-- C7: round-trip persistence — after `stopTracking()`, constructing a new
tracker (any options, any fresh-id candidate) against the resulting storage
yields a tracker whose `getEvents()` returns the same sequence the stopped
tracker's `getEvents()` returned. -/
theorem c7_persistence_roundtrip (st : TrackerState) (options2 : TrackingOptions)
    (freshId : String) (h : st.isTracking = true) :
    getEvents (mkTracker options2 (stopTracking st).storage freshId) = getEvents st := by
  rw [stopTracking_storage st h]
  rfl

/-- C7 witness: the round-trip instantiated at a concrete tracking state
holding one focus event. -/
theorem c7_persistence_roundtrip_witness :
    sampleTrackingState.isTracking = true ∧
    getEvents (mkTracker {} (stopTracking sampleTrackingState).storage "session_2") =
      getEvents sampleTrackingState :=
  ⟨rfl, c7_persistence_roundtrip sampleTrackingState {} "session_2" rfl⟩

/-- Folding a handler result through `onEventCreated` does not touch the
`formFields` map. -/
theorem applyHandlerResult_formFields (st : TrackerState) (r : Option BehaviorEvent) :
    (applyHandlerResult st r).formFields = st.formFields := by
  cases r <;> rfl

/-- No tracker operation ever writes the `formFields` map: it is only declared
(`BehaviorTracker.ts` line 13) and read by `calculateCompletionRate`. -/
theorem applyOp_formFields (st : TrackerState) (op : TrackerOp) :
    (applyOp st op).formFields = st.formFields := by
  cases op <;>
    simp only [applyOp, startTracking, stopTracking, clearSession, clearCustomEvents,
      trackCustomEvent, onEventCreated, getOrCreateSessionId,
      applyHandlerResult_formFields] <;>
    repeat' split
  all_goals try rw [applyHandlerResult_formFields]
  all_goals rfl

/-- Operation sequences preserve the `formFields` map. -/
theorem foldl_applyOp_formFields (ops : List TrackerOp) :
    ∀ st : TrackerState, (ops.foldl applyOp st).formFields = st.formFields := by
  induction ops with
  | nil => intro st; rfl
  | cons op rest ih =>
    intro st
    rw [List.foldl_cons, ih (applyOp st op), applyOp_formFields]

/-- A freshly constructed tracker has an empty `formFields` map. -/
theorem mkTracker_formFields (options : TrackingOptions) (storage : Option Session)
    (freshId : String) : (mkTracker options storage freshId).formFields = [] := by
  cases storage <;> rfl

/-- C9: in every reachable tracker state, `getInsights().completionRate`
equals 1 — no operation populates `formFields`, so `calculateCompletionRate`
always takes the empty-required-fields early return. -/
theorem c9_completion_rate_always_one (options : TrackingOptions)
    (storage : Option Session) (freshId : String) (ops : List TrackerOp) (now : Nat) :
    (getInsights (runOps options storage freshId ops) now).completionRate = 1 := by
  have hff : (runOps options storage freshId ops).formFields = [] := by
    rw [runOps, foldl_applyOp_formFields, mkTracker_formFields]
  show calculateCompletionRate (runOps options storage freshId ops).formFields
    (runOps options storage freshId ops).events = 1
  rw [hff]
  rfl

/-- C10: `clearSession()` empties only the main event log — every custom-event
query (`getCustomEvents`, `getCustomEventsCount`, `hasCustomEvent`,
`getLastCustomEvent`) is unchanged, while `getEvents()` becomes empty. -/
theorem c10_clear_session_keeps_custom_events (st : TrackerState) (now : Nat)
    (freshId : String) :
    getCustomEvents (clearSession st now freshId) = getCustomEvents st ∧
    getCustomEventsCount (clearSession st now freshId) = getCustomEventsCount st ∧
    (∀ nm : String, hasCustomEvent (clearSession st now freshId) nm = hasCustomEvent st nm) ∧
    (∀ nm : Option String,
      getLastCustomEvent (clearSession st now freshId) nm = getLastCustomEvent st nm) ∧
    getEvents (clearSession st now freshId) = [] :=
  ⟨rfl, rfl, fun _ => rfl, fun _ => rfl, rfl⟩

end WebBehaviorTracker
